import Mathlib

/-!
Shallow embedding of the `s3_bulk_copy` repository (files
`S3_copy/s3_bulk_transfer.py` and `S3_copy/monitor_transfer.py`) and proofs
about its transfer-planning, multipart, progress-ledger, exit-code and
size-formatting behaviour.

External effects (S3 network calls, file I/O) are modelled as explicit
oracles: a head request is a function `String → Option Nat` (`none` models a
`ClientError`), the per-object copy outcome and per-write persist outcome are
boolean oracles, and fallible SDK calls are `Except Unit` values.
-/

/-- Python `s.rstrip('/')`: remove every trailing `'/'` character. -/
def rstripSlashes (s : String) : String :=
  String.mk ((s.data.reverse.dropWhile (fun c => c == '/')).reverse)

/-- Python `s.lstrip('/')`: remove every leading `'/'` character. -/
def lstripSlashes (s : String) : String :=
  String.mk (s.data.dropWhile (fun c => c == '/'))

/-- Python slice `s[n:]` (character based). -/
def strDrop (s : String) (n : Nat) : String :=
  String.mk (s.data.drop n)

/-- The two key-mapping fields of `S3BulkTransfer`; `sourcePfx` and `destPfx`
are the stored `source_prefix` / `destination_prefix` attributes. -/
structure Config where
  sourcePfx : String
  destPfx : String
deriving DecidableEq

/-- `S3BulkTransfer.__init__` lines 53-54: both configured prefixes are
stored with trailing slashes removed (`.rstrip('/')`). -/
def mkConfig (source_pre dest_pre : String) : Config :=
  { sourcePfx := rstripSlashes source_pre, destPfx := rstripSlashes dest_pre }

/-- `get_destination_key` (s3_bulk_transfer.py lines 218-229): when a source
prefix is configured, drop `len(source_prefix)` characters from the key and
`lstrip('/')` the remainder; when a destination prefix is configured, prepend
it followed by `'/'`. -/
def getDestinationKey (cfg : Config) (source_key : String) : String :=
  let relative_key :=
    if cfg.sourcePfx ≠ "" then
      lstripSlashes (strDrop source_key cfg.sourcePfx.length)
    else
      source_key
  if cfg.destPfx ≠ "" then
    cfg.destPfx ++ "/" ++ relative_key
  else
    relative_key

/-- Modelled from the spec: the spec's wording of destination-key mapping,
"strip the source prefix ... trimming a single leading separator", i.e. at
most ONE leading `'/'` is removed from the remainder.  Used only to compare
the spec's wording with the code's `lstrip('/')` behaviour. -/
def specDestinationKey (cfg : Config) (source_key : String) : String :=
  let rel :=
    if cfg.sourcePfx ≠ "" then
      let d := (strDrop source_key cfg.sourcePfx.length).data
      String.mk (if d.head? = some '/' then d.tail else d)
    else
      source_key
  if cfg.destPfx ≠ "" then
    cfg.destPfx ++ "/" ++ rel
  else
    rel

/-- One listed source object (`list_source_objects` collects key and size;
`last_modified` plays no role in any transfer decision and is omitted). -/
structure S3Object where
  key : String
  size : Nat
deriving DecidableEq

/-- `list_source_objects` (lines 157-189) paginates `list_objects_v2` with
`Prefix=self.source_prefix`; the S3 `Prefix` parameter selects exactly the
keys that start, as plain strings, with the given prefix. -/
def listSourceObjects (bucket : List S3Object) (cfg : Config) : List S3Object :=
  bucket.filter (fun o => cfg.sourcePfx.data.isPrefixOf o.key.data)

/-- The in-memory `completed_transfers` mapping: key to recorded size.
(The JSON records also carry a timestamp, which no decision reads.) -/
abbrev Ledger := String → Option Nat

/-- `should_skip_transfer` (lines 199-216): skip when the progress ledger has
a record for the source key with the same size; otherwise skip exactly when
`head_object` on the mapped destination key succeeds with an identical
`ContentLength` (`none` models the `ClientError` path, which is passed). -/
def shouldSkipTransfer (cfg : Config) (completed : Ledger)
    (destHead : String → Option Nat) (source_key : String) (source_size : Nat) :
    Bool :=
  let dest_key := getDestinationKey cfg source_key
  if completed source_key = some source_size then
    true
  else
    match destHead dest_key with
    | some len => decide (len = source_size)
    | none => false

/-- The three planner outcomes for one object. -/
inductive Classification where
  | skip
  | simple
  | multipart
deriving DecidableEq

/-- The hard-coded `100 * 1024 * 1024` threshold of `transfer_file`
(line 325). -/
def multipartThreshold : Nat := 100 * 1024 * 1024

/-- The classification implicit in `transfer_file` (lines 317-328): skip if
`should_skip_transfer`, else multipart for `size > 100*1024*1024`, else
simple. -/
def classifyTransfer (cfg : Config) (completed : Ledger)
    (destHead : String → Option Nat) (key : String) (size : Nat) :
    Classification :=
  if shouldSkipTransfer cfg completed destHead key size then
    Classification.skip
  else if size > multipartThreshold then
    Classification.multipart
  else
    Classification.simple

/-- One accumulated part of a multipart upload: the dict
`{'ETag': ..., 'PartNumber': ...}` built in `transfer_large_file`. -/
structure UploadPart where
  etag : String
  partNumber : Nat
deriving DecidableEq

/-- The read/upload loop of `transfer_large_file` (lines 260-284): read up to
`chunk_size` bytes from the source stream (`min` of the request and what
remains), stop on an empty read, otherwise upload the chunk as the next
numbered part and accumulate `{ETag, PartNumber}`.  `up n` is the
`upload_part` oracle for part `n` (its `ETag` on success); the returned `Nat`
is the total of the uploaded chunk lengths.  `fuel` bounds the iteration
count; every run of the Python loop takes at most `remaining` iterations
(each non-final read consumes at least one byte), so all uses instantiate
`fuel` with the initial `remaining`. -/
def uploadPartsLoop (up : Nat → Except Unit String) (chunk_size : Nat) :
    Nat → Nat → Nat → List UploadPart → Nat →
    Except Unit (List UploadPart × Nat)
  | 0, _, _, parts, bytes => Except.ok (parts, bytes)
  | fuel + 1, remaining, part_number, parts, bytes =>
    if min chunk_size remaining = 0 then
      Except.ok (parts, bytes)
    else
      match up part_number with
      | Except.error e => Except.error e
      | Except.ok etag =>
        uploadPartsLoop up chunk_size fuel
          (remaining - min chunk_size remaining) (part_number + 1)
          (parts ++ [UploadPart.mk etag part_number])
          (bytes + min chunk_size remaining)

/-- Observable outcome of one `transfer_large_file` call: the returned
boolean, the part list passed to `complete_multipart_upload` (when that call
was reached), the total bytes sent through `upload_part`, and how many times
`abort_multipart_upload` was attempted. -/
structure TransferLargeResult where
  success : Bool
  completedParts : Option (List UploadPart)
  bytesUploaded : Nat
  abortCalls : Nat
deriving DecidableEq

/-- `transfer_large_file` (lines 250-308): create the multipart upload,
upload sequential numbered chunks, complete with the accumulated part list;
on a `ClientError` anywhere in that sequence, attempt one
`abort_multipart_upload` (the abort outcome `abortResult` is never inspected,
mirroring the bare `except: pass` around the abort call) and return `False`. -/
def transferLargeFile (create : Except Unit String)
    (up : Nat → Except Unit String)
    (complete : List UploadPart → Except Unit Unit)
    (abortResult : Except Unit Unit) (chunk_size size : Nat) :
    TransferLargeResult :=
  match create with
  | Except.error _ =>
    { success := false, completedParts := none, bytesUploaded := 0,
      abortCalls := 1 }
  | Except.ok _upload_id =>
    match uploadPartsLoop up chunk_size size size 1 [] 0 with
    | Except.error _ =>
      { success := false, completedParts := none, bytesUploaded := 0,
        abortCalls := 1 }
    | Except.ok (parts, bytes) =>
      match complete parts with
      | Except.error _ =>
        { success := false, completedParts := some parts,
          bytesUploaded := bytes, abortCalls := 1 }
      | Except.ok _ =>
        { success := true, completedParts := some parts,
          bytesUploaded := bytes, abortCalls := 0 }

/-- The `self.stats` counters that the claims read.  `copiedBytes` is not a
field of the Python dict: it counts the bytes actually moved over the network
by successful copies, distinguishing them from `transferred_size`, which
`transfer_file` also increments for skipped objects. -/
structure Stats where
  transferred_files : Nat
  failed_files : Nat
  transferred_size : Nat
  total_files : Nat
  total_size : Nat
  copiedBytes : Nat
deriving DecidableEq

/-- All counters at zero, as set in `__init__`. -/
def zeroStats : Stats :=
  { transferred_files := 0, failed_files := 0, transferred_size := 0,
    total_files := 0, total_size := 0, copiedBytes := 0 }

/-- The mutable state a run threads through `transfer_file`: the stats, the
in-memory `completed_transfers` mapping, and the on-disk form of the progress
file (what `transfer_progress.json` holds). -/
structure RunState where
  stats : Stats
  completed_transfers : Ledger
  persistedFile : Ledger

/-- A fresh engine whose `load_progress` returned `ledger0`. -/
def initRunState (ledger0 : Ledger) : RunState :=
  { stats := zeroStats, completed_transfers := ledger0,
    persistedFile := ledger0 }

/-- `load_progress` (lines 87-95): `none` models a missing progress file,
`some (Except.error ())` an unreadable or unparseable one; both produce the
empty mapping (the exception is caught and logged), never a raised error. -/
def loadProgress (fileState : Option (Except Unit Ledger)) : Ledger :=
  match fileState with
  | some (Except.ok m) => m
  | _ => fun _ => none

/-- Python dict assignment `self.completed_transfers[key] = {...}`. -/
def updateLedger (l : Ledger) (key : String) (size : Nat) : Ledger :=
  fun k => if k = key then some size else l k

/-- `save_progress` (lines 97-107): update the in-memory mapping, then
rewrite the whole file; `pOk key = false` models a write failure, which is
caught and logged — the in-memory mapping is updated either way and nothing
is raised. -/
def saveProgress (st : RunState) (pOk : String → Bool) (key : String)
    (size : Nat) : RunState :=
  let completed := updateLedger st.completed_transfers key size
  { st with
    completed_transfers := completed,
    persistedFile := if pOk key then completed else st.persistedFile }

/-- `transfer_file` (lines 310-337): a skipped object is counted as
transferred (files and size) and returns `True`; otherwise the copy runs
(`tOk obj.key` abstracts the boolean result of `transfer_small_file` or
`transfer_large_file`) and on success the stats are updated and the progress
saved, while on failure only `failed_files` grows. -/
def transferFile (cfg : Config) (destHead : String → Option Nat)
    (tOk pOk : String → Bool) (st : RunState) (obj : S3Object) :
    Bool × RunState :=
  if shouldSkipTransfer cfg st.completed_transfers destHead obj.key obj.size
  then
    (true,
      { st with stats :=
        { st.stats with
          transferred_files := st.stats.transferred_files + 1,
          transferred_size := st.stats.transferred_size + obj.size } })
  else if tOk obj.key then
    (true,
      saveProgress
        { st with stats :=
          { st.stats with
            transferred_files := st.stats.transferred_files + 1,
            transferred_size := st.stats.transferred_size + obj.size,
            copiedBytes := st.stats.copiedBytes + obj.size } }
        pOk obj.key obj.size)
  else
    (false,
      { st with stats :=
        { st.stats with failed_files := st.stats.failed_files + 1 } })

/-- The dispatch loop of `run_transfer` (lines 357-365): every enumerated
object goes through `transfer_file` once.  The worker pool's completion order
only permutes commutative counter increments, so the sequential fold captures
the final state. -/
def runTransferLoop (cfg : Config) (destHead : String → Option Nat)
    (tOk pOk : String → Bool) : RunState → List S3Object → RunState
  | st, [] => st
  | st, obj :: rest =>
    runTransferLoop cfg destHead tOk pOk
      (transferFile cfg destHead tOk pOk st obj).2 rest

/-- `run_transfer` (lines 339-369): an empty enumeration returns `False`
immediately ("No objects found to transfer"); otherwise totals are recorded,
every object is dispatched, and the result is `failed_files == 0`. -/
def runTransfer (cfg : Config) (destHead : String → Option Nat)
    (tOk pOk : String → Bool) (objects : List S3Object) (st0 : RunState) :
    Bool × RunState :=
  if objects.isEmpty then
    (false, st0)
  else
    let st1 :=
      { st0 with stats :=
        { st0.stats with
          total_files := objects.length,
          total_size := (objects.map S3Object.size).sum } }
    let stF := runTransferLoop cfg destHead tOk pOk st1 objects
    (stF.stats.failed_files == 0, stF)

/-- The parsed credentials JSON (`load_credentials_from_file` returns any
JSON object; only these keys are ever read). -/
structure Credentials where
  access_key : Option String
  secret_key : Option String
  region : Option String

/-- `validate_source_credentials` (lines 396-403): both required keys must be
present. -/
def validateSourceCredentials (c : Credentials) : Bool :=
  c.access_key.isSome && c.secret_key.isSome

/-- `main` (lines 405-468): exit 1 when the credentials file fails to load,
fails validation, or the requested access test fails; otherwise exit 0 when
`run_transfer` returns `True` and 1 when it returns `False`. -/
def mainExitCode (loadedCreds : Option Credentials)
    (testAccess accessOk : Bool) (cfg : Config)
    (destHead : String → Option Nat) (tOk pOk : String → Bool)
    (objects : List S3Object) (ledger0 : Ledger) : Nat :=
  match loadedCreds with
  | none => 1
  | some c =>
    if !validateSourceCredentials c then 1
    else if testAccess && !accessOk then 1
    else if (runTransfer cfg destHead tOk pOk objects
        (initRunState ledger0)).1 then 0
    else 1

/-- `size_names` of `monitor_transfer.format_size` (line 28). -/
def sizeNames : List String := ["B", "KB", "MB", "GB", "TB"]

/-- The `while size_bytes >= 1024 and i < len(size_names) - 1` loop of
`format_size` (lines 29-32), with the guard `i < 4` carried as the
structurally decreasing allowance `fuel = 4 - i`; each iteration divides by
1024 and advances one unit.  Divisions are exact here (rationals model the
doubles faithfully for the integer inputs this program produces, which stay
far below 2^53). -/
def formatLoopAux : Nat → ℚ → Nat → ℚ × Nat
  | 0, s, i => (s, i)
  | fuel + 1, s, i =>
    if 1024 ≤ s then formatLoopAux fuel (s / 1024) (i + 1) else (s, i)

/-- The loop entered at scaled value `s` and unit index `i`. -/
def formatLoop (s : ℚ) (i : Nat) : ℚ × Nat :=
  formatLoopAux (4 - i) s i

/-- The unit index `format_size` ends with for an integer byte count. -/
def unitIndex (n : Nat) : Nat :=
  (formatLoop (n : ℚ) 0).2

/-- Python `f"{q:.2f}"` for the non-negative exact values produced here. -/
def fixed2 (q : ℚ) : String :=
  let c : Int := round (q * 100)
  toString (c / 100) ++ "." ++
    (if c % 100 < 10 then "0" ++ toString (c % 100) else toString (c % 100))

/-- `format_size` (monitor_transfer.py lines 23-34): `"0B"` for zero,
otherwise the scaled value to two decimals, a space, and the chosen unit. -/
def formatSize (size_bytes : Nat) : String :=
  if size_bytes = 0 then
    "0B"
  else
    fixed2 (formatLoop (size_bytes : ℚ) 0).1 ++ " " ++
      sizeNames.getD (formatLoop (size_bytes : ℚ) 0).2 ""

/-- `shouldSkipTransfer` returns `true` exactly when the ledger has a
matching record or the destination head reports the source's size. -/
theorem shouldSkipTransfer_eq_true_iff (cfg : Config) (completed : Ledger)
    (destHead : String → Option Nat) (key : String) (size : Nat) :
    shouldSkipTransfer cfg completed destHead key size = true ↔
      (completed key = some size ∨
        destHead (getDestinationKey cfg key) = some size) := by
  unfold shouldSkipTransfer
  by_cases h : completed key = some size
  · simp [h]
  · simp only [h, if_false, or_iff_right h]
    cases hd : destHead (getDestinationKey cfg key) with
    | none => simp
    | some len => simp [decide_eq_true_iff]

/-- C1: a ledger record with matching size forces a skip regardless of the
destination's state (ledger priority); without a matching ledger record the
planner skips exactly when the destination head reports an identical
`ContentLength` at the mapped destination key. -/
theorem should_skip_ledger_priority (cfg : Config) (completed : Ledger)
    (destHead : String → Option Nat) (key : String) (size : Nat) :
    (completed key = some size →
      shouldSkipTransfer cfg completed destHead key size = true) ∧
    (completed key ≠ some size →
      (shouldSkipTransfer cfg completed destHead key size = true ↔
        destHead (getDestinationKey cfg key) = some size)) := by
  constructor
  · intro h
    exact (shouldSkipTransfer_eq_true_iff cfg completed destHead key size).2
      (Or.inl h)
  · intro h
    rw [shouldSkipTransfer_eq_true_iff]
    exact or_iff_right h

theorem should_skip_ledger_priority_witness :
    shouldSkipTransfer (Config.mk "" "")
      (fun k => if k = "a" then some 5 else none) (fun _ => none) "a" 5
      = true ∧
    shouldSkipTransfer (Config.mk "" "") (fun _ => none)
      (fun k => if k = "a" then some 5 else none) "a" 5
      = true :=
  ⟨(should_skip_ledger_priority (Config.mk "" "")
      (fun k => if k = "a" then some 5 else none) (fun _ => none) "a" 5).1
      (by decide),
   ((should_skip_ledger_priority (Config.mk "" "") (fun _ => none)
      (fun k => if k = "a" then some 5 else none) "a" 5).2
      (by decide)).mpr (by decide)⟩

/-- C2: among objects not classified `skip`, the planner picks `simple`
exactly for sizes up to `100 * 1024 * 1024` bytes and `multipart` exactly for
strictly larger sizes; the 100 MiB boundary itself is `simple`. -/
theorem classify_threshold_boundary (cfg : Config) (completed : Ledger)
    (destHead : String → Option Nat) (key : String) (size : Nat)
    (h : classifyTransfer cfg completed destHead key size ≠
      Classification.skip) :
    (classifyTransfer cfg completed destHead key size = Classification.simple
      ↔ size ≤ multipartThreshold) ∧
    (classifyTransfer cfg completed destHead key size =
        Classification.multipart ↔ multipartThreshold < size) ∧
    (size = multipartThreshold →
      classifyTransfer cfg completed destHead key size =
        Classification.simple) := by
  unfold classifyTransfer at *
  by_cases hs : shouldSkipTransfer cfg completed destHead key size
  · simp [hs] at h
  · by_cases hlt : size > multipartThreshold
    · simp [hs, hlt]
      omega
    · simp [hs, hlt]
      omega

theorem classify_threshold_boundary_witness :
    classifyTransfer (Config.mk "" "") (fun _ => none) (fun _ => none) "k"
      104857600 = Classification.simple :=
  (classify_threshold_boundary (Config.mk "" "") (fun _ => none)
    (fun _ => none) "k" 104857600 (by decide)).2.2 (by decide)

/-- C6 counterexample: the claim's "trim a single leading separator" disagrees
with the code's `lstrip('/')` on a key with two separators after the source
prefix: the code maps `"data//x"` to `"backup/x"`, while trimming a single
separator would give `"backup//x"`. -/
theorem dest_key_counterexample :
    getDestinationKey (mkConfig "data" "backup") "data//x" = "backup/x" ∧
    specDestinationKey (mkConfig "data" "backup") "data//x" = "backup//x" ∧
    ("backup/x" : String) ≠ "backup//x" := by
  refine ⟨by decide, by decide, by decide⟩

/-- C6 amended: for a key equal to the configured source prefix followed by a
remainder, the destination key is the destination prefix, `'/'`, and the
remainder with ALL leading separators trimmed (the code's `lstrip('/')`); in
particular `"data/2024/file.csv"` with prefixes `"data"` and `"backup"` maps
to `"backup/2024/file.csv"`. -/
theorem dest_key_mapping_amended :
    (∀ (cfg : Config) (rest : String), cfg.sourcePfx ≠ "" → cfg.destPfx ≠ "" →
      getDestinationKey cfg (String.mk (cfg.sourcePfx.data ++ rest.data)) =
        cfg.destPfx ++ "/" ++ lstripSlashes rest) ∧
    getDestinationKey (mkConfig "data" "backup") "data/2024/file.csv" =
      "backup/2024/file.csv" := by
  constructor
  · intro cfg rest h1 h2
    have hdrop :
        (String.mk (cfg.sourcePfx.data ++ rest.data)).data.drop
          cfg.sourcePfx.length = rest.data := by
      show (cfg.sourcePfx.data ++ rest.data).drop cfg.sourcePfx.data.length
        = rest.data
      exact List.drop_left cfg.sourcePfx.data rest.data
    unfold getDestinationKey strDrop lstripSlashes
    rw [hdrop]
    simp [h1, h2]
  · decide

theorem dest_key_mapping_amended_witness :
    getDestinationKey (Config.mk "data" "backup")
      (String.mk ("data".data ++ "/2024/file.csv".data)) =
      "backup" ++ "/" ++ lstripSlashes "/2024/file.csv" :=
  dest_key_mapping_amended.1 (Config.mk "data" "backup") "/2024/file.csv"
    (by decide) (by decide)

/-- C10: prefix handling is plain text, not path-aware: the constructor
strips trailing `'/'` from both prefixes; listing keeps precisely the keys
that start with the stripped source-prefix string (so `"data"` also matches
`"database/x"`); and `get_destination_key` removes exactly
`len(source_prefix)` leading characters and then all leading `'/'` before
prepending the destination prefix. -/
theorem prefix_handling_textual :
    mkConfig "data/" "backup//" = Config.mk "data" "backup" ∧
    (∀ (bucket : List S3Object) (cfg : Config) (o : S3Object),
      o ∈ listSourceObjects bucket cfg ↔
        o ∈ bucket ∧ cfg.sourcePfx.data.isPrefixOf o.key.data = true) ∧
    listSourceObjects [S3Object.mk "database/x" 5, S3Object.mk "other/y" 3]
      (mkConfig "data" "backup") = [S3Object.mk "database/x" 5] ∧
    getDestinationKey (mkConfig "data" "backup") "database/x" =
      "backup/base/x" ∧
    getDestinationKey (mkConfig "data" "backup") "data///y" = "backup/y" := by
  refine ⟨by decide, ?_, by decide, by decide, by decide⟩
  intro bucket cfg o
  unfold listSourceObjects
  simp [List.mem_filter]

/-- When every `upload_part` succeeds, the loop consumes the whole stream: it
appends a tail of parts numbered consecutively from `part_number`, each
carrying the etag returned for it, and adds exactly `remaining` bytes. -/
theorem uploadPartsLoop_ok (up : Nat → Except Unit String)
    (chunk_size : Nat) (etagOf : Nat → String) (hcs : 0 < chunk_size)
    (hup : ∀ n, up n = Except.ok (etagOf n)) :
    ∀ (fuel remaining part_number : Nat) (parts : List UploadPart)
      (bytes : Nat), remaining ≤ fuel →
      ∃ tail : List UploadPart,
        uploadPartsLoop up chunk_size fuel remaining part_number parts bytes =
          Except.ok (parts ++ tail, bytes + remaining) ∧
        tail.map UploadPart.partNumber =
          List.range' part_number tail.length ∧
        ∀ p ∈ tail, UploadPart.etag p = etagOf (UploadPart.partNumber p) := by
  intro fuel
  induction fuel with
  | zero =>
    intro remaining part_number parts bytes hle
    have hr : remaining = 0 := by omega
    subst hr
    exact ⟨[], by simp [uploadPartsLoop], by simp, by simp⟩
  | succ fuel ih =>
    intro remaining part_number parts bytes hle
    by_cases hr : remaining = 0
    · subst hr
      exact ⟨[], by simp [uploadPartsLoop], by simp, by simp⟩
    · have hchunk : ¬ min chunk_size remaining = 0 := by
        simp only [Nat.min_eq_zero_iff]
        omega
      obtain ⟨tail, heq, hmap, hetag⟩ := ih
        (remaining - min chunk_size remaining) (part_number + 1)
        (parts ++ [UploadPart.mk (etagOf part_number) part_number])
        (bytes + min chunk_size remaining) (by omega)
      refine ⟨UploadPart.mk (etagOf part_number) part_number :: tail,
        ?_, ?_, ?_⟩
      · have hbytes : bytes + min chunk_size remaining +
            (remaining - min chunk_size remaining) = bytes + remaining := by
          omega
        simp only [uploadPartsLoop, if_neg hchunk, hup part_number]
        rw [heq, hbytes, List.append_assoc]
        rfl
      · simp only [List.map_cons, hmap, List.length_cons]
        rfl
      · intro p hp
        rcases List.mem_cons.mp hp with h | h
        · subst h; rfl
        · exact hetag p h

/-- C3: when a multipart copy succeeds end to end (create, every chunk
upload, completion), the part list handed to `complete_multipart_upload` is
exactly parts `1..N` in strictly increasing order with no duplicates or gaps
(`N` being the number of non-empty chunks read), each part carries the etag
returned for it, and the bytes pushed through `upload_part` total the source
object's size. -/
theorem multipart_parts_complete (create : Except Unit String)
    (up : Nat → Except Unit String)
    (complete : List UploadPart → Except Unit Unit)
    (abortResult : Except Unit Unit) (etagOf : Nat → String)
    (chunk_size size : Nat) (uid : String)
    (hcreate : create = Except.ok uid) (hcs : 0 < chunk_size)
    (hup : ∀ n, up n = Except.ok (etagOf n))
    (hcomplete : ∀ ps, complete ps = Except.ok ()) :
    (transferLargeFile create up complete abortResult chunk_size
        size).success = true ∧
    (transferLargeFile create up complete abortResult chunk_size
        size).bytesUploaded = size ∧
    ∃ parts : List UploadPart,
      (transferLargeFile create up complete abortResult chunk_size
          size).completedParts = some parts ∧
      parts.map UploadPart.partNumber = List.range' 1 parts.length ∧
      ∀ p ∈ parts, UploadPart.etag p = etagOf (UploadPart.partNumber p) := by
  obtain ⟨tail, heq, hmap, hetag⟩ :=
    uploadPartsLoop_ok up chunk_size etagOf hcs hup size size 1 [] 0
      (Nat.le_refl size)
  have hres : transferLargeFile create up complete abortResult chunk_size size
      = { success := true, completedParts := some tail,
          bytesUploaded := size, abortCalls := 0 } := by
    unfold transferLargeFile
    rw [hcreate, heq]
    simp [hcomplete]
  rw [hres]
  exact ⟨rfl, rfl, tail, rfl, hmap, hetag⟩

theorem multipart_parts_complete_witness :
    (transferLargeFile (Except.ok "uid") (fun n => Except.ok (toString n))
        (fun _ => Except.ok ()) (Except.ok ()) 5 12).success = true ∧
    (transferLargeFile (Except.ok "uid") (fun n => Except.ok (toString n))
        (fun _ => Except.ok ()) (Except.ok ()) 5 12).bytesUploaded = 12 :=
  ⟨(multipart_parts_complete (Except.ok "uid")
      (fun n => Except.ok (toString n)) (fun _ => Except.ok ())
      (Except.ok ()) (fun n => toString n) 5 12 "uid" rfl (by decide)
      (fun _ => rfl) (fun _ => rfl)).1,
   (multipart_parts_complete (Except.ok "uid")
      (fun n => Except.ok (toString n)) (fun _ => Except.ok ())
      (Except.ok ()) (fun n => toString n) 5 12 "uid" rfl (by decide)
      (fun _ => rfl) (fun _ => rfl)).2.1⟩

/-- C7: whenever the multipart copy fails at any stage (creating the upload,
uploading a chunk, or completing), `transfer_large_file` returns `False`
rather than raising, attempts the abort exactly once, and its result does not
depend on the abort call's own outcome (an abort failure is swallowed). -/
theorem multipart_abort_on_failure (create : Except Unit String)
    (up : Nat → Except Unit String)
    (complete : List UploadPart → Except Unit Unit)
    (abortResult abort_1 abort_2 : Except Unit Unit) (chunk_size size : Nat)
    (hfail : create = Except.error () ∨
      uploadPartsLoop up chunk_size size size 1 [] 0 = Except.error () ∨
      ∃ (parts : List UploadPart) (bytes : Nat),
        uploadPartsLoop up chunk_size size size 1 [] 0 =
          Except.ok (parts, bytes) ∧ complete parts = Except.error ()) :
    (transferLargeFile create up complete abortResult chunk_size
        size).success = false ∧
    (transferLargeFile create up complete abortResult chunk_size
        size).abortCalls = 1 ∧
    transferLargeFile create up complete abort_1 chunk_size size =
      transferLargeFile create up complete abort_2 chunk_size size := by
  refine ⟨?_, ?_, rfl⟩ <;>
  · rcases hfail with h | h | ⟨parts, bytes, hloop, hcomp⟩
    · simp [transferLargeFile, h]
    · cases hc : create with
      | error e => simp [transferLargeFile, hc]
      | ok uid => simp [transferLargeFile, hc, h]
    · cases hc : create with
      | error e => simp [transferLargeFile, hc]
      | ok uid => simp [transferLargeFile, hc, hloop, hcomp]

theorem multipart_abort_on_failure_witness :
    (transferLargeFile (Except.ok "uid") (fun _ => Except.error ())
        (fun _ => Except.ok ()) (Except.error ()) 5 12).success = false ∧
    (transferLargeFile (Except.ok "uid") (fun _ => Except.error ())
        (fun _ => Except.ok ()) (Except.error ()) 5 12).abortCalls = 1 :=
  ⟨(multipart_abort_on_failure (Except.ok "uid") (fun _ => Except.error ())
      (fun _ => Except.ok ()) (Except.error ()) (Except.ok ())
      (Except.error ()) 5 12 (Or.inr (Or.inl rfl))).1,
   (multipart_abort_on_failure (Except.ok "uid") (fun _ => Except.error ())
      (fun _ => Except.ok ()) (Except.error ()) (Except.ok ())
      (Except.error ()) 5 12 (Or.inr (Or.inl rfl))).2.1⟩

/-- C8: progress-ledger I/O never decides a transfer's fate: a missing or
unreadable progress file loads as the empty mapping rather than an error,
and when the copy itself succeeded, `transfer_file` reports success and
counts the object as transferred for every persist outcome `pOk`, including
a failing one (`save_progress` catches its write errors). -/
theorem progress_io_nonfatal :
    loadProgress none = (fun _ => none) ∧
    loadProgress (some (Except.error ())) = (fun _ => none) ∧
    ∀ (cfg : Config) (destHead : String → Option Nat)
      (tOk pOk : String → Bool) (st : RunState) (obj : S3Object),
      tOk obj.key = true →
      (transferFile cfg destHead tOk pOk st obj).1 = true ∧
      (transferFile cfg destHead tOk pOk st obj).2.stats.transferred_files =
        st.stats.transferred_files + 1 := by
  refine ⟨rfl, rfl, ?_⟩
  intro cfg destHead tOk pOk st obj htok
  by_cases hs :
    shouldSkipTransfer cfg st.completed_transfers destHead obj.key obj.size
  · simp [transferFile, hs]
  · simp [transferFile, hs, htok, saveProgress]

theorem progress_io_nonfatal_witness :
    (transferFile (Config.mk "" "") (fun _ => none) (fun _ => true)
      (fun _ => false) (initRunState (fun _ => none))
      (S3Object.mk "k" 5)).1 = true ∧
    (transferFile (Config.mk "" "") (fun _ => none) (fun _ => true)
      (fun _ => false) (initRunState (fun _ => none))
      (S3Object.mk "k" 5)).2.stats.transferred_files = 1 :=
  progress_io_nonfatal.2.2 (Config.mk "" "") (fun _ => none) (fun _ => true)
    (fun _ => false) (initRunState (fun _ => none)) (S3Object.mk "k" 5) rfl

/-- `run_transfer` reports `True` exactly for a non-empty enumeration that
ends with a zero `failed_files` counter. -/
theorem runTransfer_eq_true_iff (cfg : Config)
    (destHead : String → Option Nat) (tOk pOk : String → Bool)
    (objects : List S3Object) (st0 : RunState) :
    (runTransfer cfg destHead tOk pOk objects st0).1 = true ↔
      (objects ≠ [] ∧
        (runTransfer cfg destHead tOk pOk objects
          st0).2.stats.failed_files = 0) := by
  cases objects with
  | nil => simp [runTransfer]
  | cons o rest => simp [runTransfer]

/-- C4 counterexample: with valid credentials and an empty source listing the
run fails no object, yet the process exits with code 1 (`run_transfer`
returns `False` for "No objects found to transfer"), so "no failed objects
implies exit code 0" is false as stated. -/
theorem exit_code_counterexample :
    mainExitCode (some (Credentials.mk (some "AK") (some "SK") none)) false
      true (Config.mk "" "") (fun _ => none) (fun _ => true) (fun _ => true)
      [] (fun _ => none) = 1 ∧
    (runTransfer (Config.mk "" "") (fun _ => none) (fun _ => true)
      (fun _ => true) [] (initRunState (fun _ => none))).2.stats.failed_files
      = 0 :=
  ⟨rfl, rfl⟩

/-- C4 amended: the process exits 0 iff the credentials file loads and
validates, the access test (when requested) passes, at least one object was
enumerated, and the run ends with zero failed objects; in every other case —
including an empty or failed listing with zero failures — it exits 1. -/
theorem exit_code_amended (loadedCreds : Option Credentials)
    (testAccess accessOk : Bool) (cfg : Config)
    (destHead : String → Option Nat) (tOk pOk : String → Bool)
    (objects : List S3Object) (ledger0 : Ledger) :
    mainExitCode loadedCreds testAccess accessOk cfg destHead tOk pOk objects
        ledger0 = 0 ↔
      ((∃ c, loadedCreds = some c ∧ validateSourceCredentials c = true) ∧
        (testAccess = true → accessOk = true) ∧
        objects ≠ [] ∧
        (runTransfer cfg destHead tOk pOk objects
          (initRunState ledger0)).2.stats.failed_files = 0) := by
  have hrun := runTransfer_eq_true_iff cfg destHead tOk pOk objects
    (initRunState ledger0)
  cases loadedCreds with
  | none => simp [mainExitCode]
  | some c =>
    cases hv : validateSourceCredentials c with
    | false => simp [mainExitCode, hv]
    | true =>
      cases hta : testAccess <;> cases hao : accessOk <;>
        cases hr : (runTransfer cfg destHead tOk pOk objects
          (initRunState ledger0)).1 <;>
        rw [hr] at hrun <;>
        simp_all [mainExitCode, hv]

theorem exit_code_amended_witness :
    mainExitCode (some (Credentials.mk (some "AK") (some "SK") none)) false
      true (Config.mk "" "") (fun _ => none) (fun _ => true) (fun _ => true)
      [S3Object.mk "k" 5] (fun _ => none) = 0 :=
  (exit_code_amended (some (Credentials.mk (some "AK") (some "SK") none))
    false true (Config.mk "" "") (fun _ => none) (fun _ => true)
    (fun _ => true) [S3Object.mk "k" 5] (fun _ => none)).mpr
    ⟨⟨Credentials.mk (some "AK") (some "SK") none, rfl, rfl⟩,
      fun _ => rfl, by decide, rfl⟩

/-- `transfer_file` never touches the ledger entry of a different key. -/
theorem transferFile_completed_ne (cfg : Config)
    (destHead : String → Option Nat) (tOk pOk : String → Bool)
    (st : RunState) (obj : S3Object) (k : String) (hne : k ≠ obj.key) :
    (transferFile cfg destHead tOk pOk st obj).2.completed_transfers k =
      st.completed_transfers k := by
  by_cases hs :
    shouldSkipTransfer cfg st.completed_transfers destHead obj.key obj.size
  · simp [transferFile, hs]
  · by_cases ht : tOk obj.key
    · simp [transferFile, hs, ht, saveProgress, updateLedger, hne]
    · simp [transferFile, hs, ht]

/-- After a successful (non-skipped) copy, `transfer_file` has recorded the
object's size under its key. -/
theorem transferFile_completed_self (cfg : Config)
    (destHead : String → Option Nat) (tOk pOk : String → Bool)
    (st : RunState) (obj : S3Object)
    (hs : ¬ shouldSkipTransfer cfg st.completed_transfers destHead obj.key
      obj.size)
    (ht : tOk obj.key = true) :
    (transferFile cfg destHead tOk pOk st obj).2.completed_transfers obj.key =
      some obj.size := by
  simp [transferFile, hs, ht, saveProgress, updateLedger]

/-- The dispatch loop never touches the ledger entry of a key that is not
among the processed objects. -/
theorem runTransferLoop_completed_not_mem (cfg : Config)
    (destHead : String → Option Nat) (tOk pOk : String → Bool) :
    ∀ (objects : List S3Object) (st : RunState) (k : String),
      k ∉ objects.map S3Object.key →
      (runTransferLoop cfg destHead tOk pOk st
        objects).completed_transfers k = st.completed_transfers k := by
  intro objects
  induction objects with
  | nil => intro st k _; rfl
  | cons obj rest ih =>
    intro st k h
    simp only [List.map_cons, List.mem_cons, not_or] at h
    obtain ⟨hne, hrest⟩ := h
    show (runTransferLoop cfg destHead tOk pOk
      (transferFile cfg destHead tOk pOk st obj).2 rest).completed_transfers k
      = st.completed_transfers k
    rw [ih _ k hrest]
    exact transferFile_completed_ne cfg destHead tOk pOk st obj k hne

/-- After a first run from an empty ledger in which every attempted copy
succeeds, each listed object (keys pairwise distinct, as in an S3 listing)
either has a ledger record with its size or already matched the destination
head when it was skipped. -/
theorem runTransferLoop_skipReady (cfg : Config)
    (destHead : String → Option Nat) (tOk pOk : String → Bool)
    (hok : ∀ k, tOk k = true) :
    ∀ (objects : List S3Object) (st : RunState),
      (objects.map S3Object.key).Nodup →
      (∀ obj ∈ objects, st.completed_transfers obj.key = none) →
      ∀ obj ∈ objects,
        (runTransferLoop cfg destHead tOk pOk st
          objects).completed_transfers obj.key = some obj.size ∨
        destHead (getDestinationKey cfg obj.key) = some obj.size := by
  intro objects
  induction objects with
  | nil => intro st _ _ obj h; exact absurd h (List.not_mem_nil obj)
  | cons o rest ih =>
    intro st hnd hnone obj hmem
    rw [List.map_cons] at hnd
    have hcons := List.nodup_cons.mp hnd
    rcases List.mem_cons.mp hmem with heq | hmem'
    · subst heq
      by_cases hs : shouldSkipTransfer cfg st.completed_transfers destHead
        obj.key obj.size
      · rcases (shouldSkipTransfer_eq_true_iff cfg st.completed_transfers
          destHead obj.key obj.size).1 hs with hl | hd
        · rw [hnone obj (List.mem_cons_self obj rest)] at hl
          exact absurd hl (by simp)
        · exact Or.inr hd
      · left
        show (runTransferLoop cfg destHead tOk pOk
          (transferFile cfg destHead tOk pOk st obj).2
          rest).completed_transfers obj.key = some obj.size
        rw [runTransferLoop_completed_not_mem cfg destHead tOk pOk rest _
          obj.key hcons.1]
        exact transferFile_completed_self cfg destHead tOk pOk st obj hs
          (hok obj.key)
    · have hnone' : ∀ ob ∈ rest,
          (transferFile cfg destHead tOk pOk st o).2.completed_transfers
            ob.key = none := by
        intro ob hob
        have hobne : ob.key ≠ o.key := by
          intro hk
          exact hcons.1 (hk ▸ List.mem_map_of_mem S3Object.key hob)
        rw [transferFile_completed_ne cfg destHead tOk pOk st o ob.key hobne]
        exact hnone ob (List.mem_cons_of_mem o hob)
      exact ih (transferFile cfg destHead tOk pOk st o).2 hcons.2 hnone' obj
        hmem'

/-- When every processed object is skip-eligible, the loop only bumps the
transferred counters: nothing is copied, nothing fails, and the ledger and
the total counters are untouched. -/
theorem runTransferLoop_all_skip (cfg : Config)
    (destHead : String → Option Nat) (tOk pOk : String → Bool) :
    ∀ (objects : List S3Object) (st : RunState),
      (∀ obj ∈ objects,
        st.completed_transfers obj.key = some obj.size ∨
        destHead (getDestinationKey cfg obj.key) = some obj.size) →
      (runTransferLoop cfg destHead tOk pOk st
          objects).stats.transferred_files =
        st.stats.transferred_files + objects.length ∧
      (runTransferLoop cfg destHead tOk pOk st objects).stats.failed_files =
        st.stats.failed_files ∧
      (runTransferLoop cfg destHead tOk pOk st objects).stats.copiedBytes =
        st.stats.copiedBytes ∧
      (runTransferLoop cfg destHead tOk pOk st objects).stats.total_files =
        st.stats.total_files ∧
      (runTransferLoop cfg destHead tOk pOk st objects).completed_transfers =
        st.completed_transfers := by
  intro objects
  induction objects with
  | nil => intro st _; exact ⟨rfl, rfl, rfl, rfl, rfl⟩
  | cons o rest ih =>
    intro st hready
    have hs : shouldSkipTransfer cfg st.completed_transfers destHead o.key
        o.size = true :=
      (shouldSkipTransfer_eq_true_iff cfg st.completed_transfers destHead
        o.key o.size).2 (hready o (List.mem_cons_self o rest))
    have hstep : transferFile cfg destHead tOk pOk st o =
        (true,
          { st with stats :=
            { st.stats with
              transferred_files := st.stats.transferred_files + 1,
              transferred_size := st.stats.transferred_size + o.size } }) := by
      simp [transferFile, hs]
    have hloop : runTransferLoop cfg destHead tOk pOk st (o :: rest) =
        runTransferLoop cfg destHead tOk pOk
          { st with stats :=
            { st.stats with
              transferred_files := st.stats.transferred_files + 1,
              transferred_size := st.stats.transferred_size + o.size } }
          rest := by
      show runTransferLoop cfg destHead tOk pOk
        (transferFile cfg destHead tOk pOk st o).2 rest = _
      rw [hstep]
    have hready' : ∀ obj ∈ rest,
        ({ st with stats :=
            { st.stats with
              transferred_files := st.stats.transferred_files + 1,
              transferred_size := st.stats.transferred_size + o.size } } :
          RunState).completed_transfers obj.key = some obj.size ∨
        destHead (getDestinationKey cfg obj.key) = some obj.size := by
      intro obj hob
      exact hready obj (List.mem_cons_of_mem o hob)
    obtain ⟨h1, h2, h3, h4, h5⟩ := ih _ hready'
    rw [hloop]
    refine ⟨?_, h2, h3, h4, h5⟩
    rw [h1]
    simp only [List.length_cons]
    omega

/-- For a non-empty enumeration, `run_transfer` records the totals, folds
every object through `transfer_file`, and reports `failed_files == 0`. -/
theorem runTransfer_nonempty (cfg : Config) (destHead : String → Option Nat)
    (tOk pOk : String → Bool) (objects : List S3Object) (st0 : RunState)
    (h : objects ≠ []) :
    runTransfer cfg destHead tOk pOk objects st0 =
      ((runTransferLoop cfg destHead tOk pOk
          { st0 with stats :=
            { st0.stats with
              total_files := objects.length,
              total_size := (objects.map S3Object.size).sum } }
          objects).stats.failed_files == 0,
        runTransferLoop cfg destHead tOk pOk
          { st0 with stats :=
            { st0.stats with
              total_files := objects.length,
              total_size := (objects.map S3Object.size).sum } }
          objects) := by
  have hne : objects.isEmpty = false := by
    cases objects with
    | nil => exact absurd rfl h
    | cons a l => rfl
  simp [runTransfer, hne]

/-- C5: run the engine twice over the same non-empty listing (keys pairwise
distinct) with every attempted copy succeeding in run 1 and run 2 starting
from run 1's ledger: run 2 copies zero bytes, ends with
`transferred_files = total_files`, reports overall success, and classifies
every object `skip`. -/
theorem second_run_idempotent (cfg : Config) (destHead : String → Option Nat)
    (tOk pOk : String → Bool) (objects : List S3Object)
    (hnd : (objects.map S3Object.key).Nodup) (hok : ∀ k, tOk k = true)
    (hne : objects ≠ []) :
    (runTransfer cfg destHead tOk pOk objects
      (initRunState
        (runTransfer cfg destHead tOk pOk objects
          (initRunState (fun _ => none))).2.completed_transfers)).2.stats.copiedBytes
      = 0 ∧
    (runTransfer cfg destHead tOk pOk objects
      (initRunState
        (runTransfer cfg destHead tOk pOk objects
          (initRunState (fun _ => none))).2.completed_transfers)).2.stats.transferred_files
      =
      (runTransfer cfg destHead tOk pOk objects
        (initRunState
          (runTransfer cfg destHead tOk pOk objects
            (initRunState (fun _ => none))).2.completed_transfers)).2.stats.total_files
      ∧
    (runTransfer cfg destHead tOk pOk objects
      (initRunState
        (runTransfer cfg destHead tOk pOk objects
          (initRunState (fun _ => none))).2.completed_transfers)).1 = true ∧
    ∀ obj ∈ objects,
      classifyTransfer cfg
        (runTransfer cfg destHead tOk pOk objects
          (initRunState (fun _ => none))).2.completed_transfers
        destHead obj.key obj.size = Classification.skip := by
  rw [runTransfer_nonempty cfg destHead tOk pOk objects
    (initRunState (fun _ => none)) hne]
  dsimp only
  have hready := runTransferLoop_skipReady cfg destHead tOk pOk hok objects
    { initRunState (fun _ => none) with stats :=
      { (initRunState (fun _ => none)).stats with
        total_files := objects.length,
        total_size := (objects.map S3Object.size).sum } }
    hnd (fun obj _ => rfl)
  set L1 := (runTransferLoop cfg destHead tOk pOk
    { initRunState (fun _ => none) with stats :=
      { (initRunState (fun _ => none)).stats with
        total_files := objects.length,
        total_size := (objects.map S3Object.size).sum } }
    objects).completed_transfers with hL1
  rw [runTransfer_nonempty cfg destHead tOk pOk objects (initRunState L1) hne]
  dsimp only
  have hready2 : ∀ obj ∈ objects,
      ({ initRunState L1 with stats :=
        { (initRunState L1).stats with
          total_files := objects.length,
          total_size := (objects.map S3Object.size).sum } } :
        RunState).completed_transfers obj.key = some obj.size ∨
      destHead (getDestinationKey cfg obj.key) = some obj.size :=
    fun obj hob => hready obj hob
  obtain ⟨h1, h2, h3, h4, h5⟩ := runTransferLoop_all_skip cfg destHead tOk pOk
    objects
    { initRunState L1 with stats :=
      { (initRunState L1).stats with
        total_files := objects.length,
        total_size := (objects.map S3Object.size).sum } }
    hready2
  refine ⟨h3, ?_, ?_, ?_⟩
  · rw [h1, h4]
    show 0 + objects.length = objects.length
    omega
  · rw [h2]
    rfl
  · intro obj hob
    have hs := (shouldSkipTransfer_eq_true_iff cfg L1 destHead obj.key
      obj.size).2 (hready obj hob)
    simp [classifyTransfer, hs]

theorem second_run_idempotent_witness :
    (runTransfer (Config.mk "" "") (fun _ => none) (fun _ => true)
      (fun _ => true) [S3Object.mk "k" 5]
      (initRunState
        (runTransfer (Config.mk "" "") (fun _ => none) (fun _ => true)
          (fun _ => true) [S3Object.mk "k" 5]
          (initRunState (fun _ => none))).2.completed_transfers)).2.stats.copiedBytes
      = 0 :=
  (second_run_idempotent (Config.mk "" "") (fun _ => none) (fun _ => true)
    (fun _ => true) [S3Object.mk "k" 5] (by simp) (fun _ => rfl)
    (by decide)).1

/-- Closed form of the chosen unit index: one unit step per factor of 1024,
capped at the last name. -/
theorem unitIndex_eq (n : Nat) :
    unitIndex n =
      if n < 1024 then 0
      else if n < 1048576 then 1
      else if n < 1073741824 then 2
      else if n < 1099511627776 then 3
      else 4 := by
  have g1 : ((1024 : ℚ) ≤ (n : ℚ)) ↔ 1024 ≤ n := by exact_mod_cast Iff.rfl
  have g2 : ((1024 : ℚ) ≤ (n : ℚ) / 1024) ↔ 1048576 ≤ n := by
    rw [le_div_iff (by norm_num : (0:ℚ) < 1024)]
    have h : (1024 : ℚ) * 1024 = ((1048576 : Nat) : ℚ) := by norm_num
    rw [h]
    exact_mod_cast Iff.rfl
  have g3 : ((1024 : ℚ) ≤ (n : ℚ) / 1024 / 1024) ↔ 1073741824 ≤ n := by
    rw [div_div, le_div_iff (by norm_num : (0:ℚ) < 1024 * 1024)]
    have h : (1024 : ℚ) * (1024 * 1024) = ((1073741824 : Nat) : ℚ) := by
      norm_num
    rw [h]
    exact_mod_cast Iff.rfl
  have g4 : ((1024 : ℚ) ≤ (n : ℚ) / 1024 / 1024 / 1024) ↔
      1099511627776 ≤ n := by
    rw [div_div, div_div,
      le_div_iff (by norm_num : (0:ℚ) < 1024 * (1024 * 1024))]
    have h : (1024 : ℚ) * (1024 * (1024 * 1024)) =
        ((1099511627776 : Nat) : ℚ) := by norm_num
    rw [h]
    exact_mod_cast Iff.rfl
  show (formatLoopAux 4 (n : ℚ) 0).2 = _
  simp only [formatLoopAux, g1, g2, g3, g4]
  split_ifs <;> first | rfl | omega

/-- C9: `format_size` renders 0 as `"0B"`; 1536 renders one unit step up
from bytes (`"1.50 KB"`, unit index 1 = `"KB"`); and the chosen unit index
is monotone non-decreasing in the byte count. -/
theorem format_size_spec :
    formatSize 0 = "0B" ∧
    formatSize 1536 = "1.50 KB" ∧
    sizeNames.getD (unitIndex 1536) "" = "KB" ∧
    ∀ m n : Nat, m ≤ n → unitIndex m ≤ unitIndex n := by
  have hloop : formatLoop ((1536 : Nat) : ℚ) 0 = (3 / 2, 1) := by
    norm_num [formatLoop, formatLoopAux]
  have hfix : fixed2 (3 / 2) = "1.50" := by
    unfold fixed2
    have hr : round ((3 / 2 : ℚ) * 100) = 150 := by norm_num [round_eq]
    rw [hr]
    decide
  have hu : unitIndex 1536 = 1 := by
    rw [unitIndex_eq]
    norm_num
  refine ⟨rfl, ?_, ?_, ?_⟩
  · show (if (1536 : Nat) = 0 then "0B"
      else fixed2 (formatLoop ((1536 : Nat) : ℚ) 0).1 ++ " " ++
        sizeNames.getD (formatLoop ((1536 : Nat) : ℚ) 0).2 "") = "1.50 KB"
    rw [if_neg (by decide : ¬ (1536 : Nat) = 0), hloop]
    rw [show ((3 / 2 : ℚ), 1).1 = (3 / 2 : ℚ) from rfl, hfix]
    decide
  · rw [hu]
    decide
  · intro m n hmn
    rw [unitIndex_eq, unitIndex_eq]
    split_ifs <;> omega

theorem format_size_spec_witness :
    unitIndex 1000 ≤ unitIndex 2000 :=
  format_size_spec.2.2.2 1000 2000 (by omega)
